import Mathlib

/-!
Shallow embedding of the per-PLC connection engine of `src/util/plc.c`
(libplctag).  The engine drives a non-blocking socket through a layered
protocol stack.  Pure data (request queue, payload offsets, retry and idle
timing, flags) is modelled directly; the protocol layers, the per-request
callbacks and the socket module are external collaborators and are modelled
as oracle functions supplied in an `Env` record.  Each C state function
becomes a pure Lean function `Env → PlcState → PlcState × Status`.

Machine integers: the C fields are `int` / `int64_t`.  All arithmetic the
engine performs on them (doubling capped at 16000, adding a retry interval
to a millisecond clock) stays far below any overflow boundary, so they are
modelled as unbounded `Int`.
-/

namespace Plc

/-- Status codes of the libplctag error taxonomy used by `plc.c`
(`PLCTAG_STATUS_OK`, `PLCTAG_STATUS_PENDING`, `PLCTAG_ERR_PARTIAL`, ...). -/
inductive Status where
  | Ok
  | Pending
  | Partial
  | Retry
  | Busy
  | NotFound
  | NoMem
  | BadGateway
  | OutOfBounds
  | TooSmall
  | NullPtr
deriving DecidableEq, Repr

/-- Identifiers for the state functions of the engine (the C code stores a
function pointer `plc->state_func`; we store a tag). -/
inductive StateId where
  | dispatch
  | reserve_space_for_tag_request
  | build_tag_request
  | tag_request_sent
  | tag_response_ready
  | start_connect
  | build_layer_connect_request
  | layer_connect_request_sent
  | layer_connect_response_ready
  | start_disconnect
  | build_layer_disconnect_request
  | layer_disconnect_request_sent
  | layer_disconnect_response_ready
  | terminate
deriving DecidableEq, Repr

/-- A queued tag request (`struct plc_request_s`).  `addr` models the pointer
identity of the request object (the C code compares request pointers);
`req_id` is the assigned `plc_request_id` (`int64_t`, `-1` = unassigned).
The build/process callbacks live in the oracle environment, keyed by
`addr`. -/
structure Request where
  addr : Nat
  req_id : Int
deriving DecidableEq, Repr

/-- Result of one call to a layer or request callback: the returned status
code plus the values left in the `*data_start`, `*data_end` and `*req_id`
out-parameters.  Callbacks that lack one of the out-parameters simply have
that field ignored by the engine. -/
structure LayerResult where
  rc : Status
  data_start : Int
  data_end : Int
  req_id : Int
deriving DecidableEq, Repr

/-- The mutable per-PLC state of `struct plc_s` that the engine reads and
writes (fields the claims depend on).  `data` is the shared byte buffer.

`delivered`, `write_arms` and `read_arms` are ghost observation fields, not
C fields: `delivered` logs each invocation of a request's
`process_response` callback as `(request addr, data_start, data_end)`;
`write_arms` / `read_arms` count successful registrations of socket
write-done / read-done completion callbacks. -/
structure PlcState where
  request_list : List Request
  current_request_id : Int
  state_func : StateId
  data : List Nat
  data_capacity : Int
  payload_end : Int
  payload_start : Int
  has_socket : Bool
  retry_interval_ms : Int
  next_retry_time : Int
  idle_timeout_ms : Int
  next_idle_timeout : Int
  is_connected : Bool
  is_terminating : Bool
  delivered : List (Nat × Int × Int)
  write_arms : Nat
  read_arms : Nat
deriving DecidableEq, Repr

/-- External collaborators as oracles.  Layer operations take a call index
(so that repeated calls inside one state-function invocation may answer
differently) and the values handed in the `data_start` / `data_end` /
`req_id` out-parameters; request callbacks are keyed by the request's
`addr`.  Socket operations are summarised by the status codes they return
during the state-function invocation under consideration. -/
structure Env where
  now : Int
  socket_status : Status
  socket_create_rc : Status
  init_rc : Status
  conn_arm_rc : Status
  write_arm_rc : Status
  read_arm_rc : Status
  reserve_space : Nat → Int → Int → Int → LayerResult
  build_layer : Nat → Int → Int → Int → LayerResult
  connect_op : Nat → Int → Int → LayerResult
  disconnect_op : Nat → Int → Int → LayerResult
  process_response : Nat → Int → Int → Int → LayerResult
  build_request : Nat → Int → Int → Int → LayerResult
  request_process_response : Nat → Int → Int → Int → LayerResult

/-- `MAX_RETRY_INTERVAL_MS` (plc.c:55). -/
def MAX_RETRY_INTERVAL_MS : Int := 16000

/-- `MIN_RETRY_INTERVAL_MS` (plc.c:56).  Defined in the source but never
used by any code path. -/
def MIN_RETRY_INTERVAL_MS : Int := 1000

/-- `DEFAULT_IDLE_TIMEOUT_MS` (plc.c:53). -/
def DEFAULT_IDLE_TIMEOUT_MS : Int := 5000

/-- The retry-interval update performed by both `DISCONNECT_ON_ERROR`
(plc.c:69-72) and `RESET_ON_ERROR` (plc.c:84-87): double, then clamp to the
maximum.  No lower clamp appears in the source. -/
def backoff (r : Int) : Int :=
  let r2 := r * 2
  if r2 > MAX_RETRY_INTERVAL_MS then MAX_RETRY_INTERVAL_MS else r2

/-- The `DISCONNECT_ON_ERROR` macro body (plc.c:66-78), taken when its
condition fires: apply the backoff, set `next_retry_time`, go to
`state_start_disconnect`, and break with `PLCTAG_STATUS_PENDING`. -/
def DISCONNECT_ON_ERROR (now : Int) (plc : PlcState) : PlcState × Status :=
  let r := backoff plc.retry_interval_ms
  ({ plc with retry_interval_ms := r
            , next_retry_time := now + r
            , state_func := StateId.start_disconnect }, Status.Pending)

/-- `reset_plc` (plc.c:834-855): close the socket, re-run the layers'
initialisation, clear `is_connected`.  The socket stays allocated and the
layer initialisation has no effect on the modelled fields. -/
def reset_plc (plc : PlcState) : PlcState :=
  { plc with is_connected := false }

/-- The `RESET_ON_ERROR` macro body (plc.c:80-93), taken when its condition
fires: `reset_plc`, apply the backoff, set `next_retry_time`, go back to
`state_dispatch_requests`, and break with `PLCTAG_STATUS_OK`. -/
def RESET_ON_ERROR (now : Int) (plc : PlcState) : PlcState × Status :=
  let plc1 := reset_plc plc
  let r := backoff plc1.retry_interval_ms
  ({ plc1 with retry_interval_ms := r
             , next_retry_time := now + r
             , state_func := StateId.dispatch }, Status.Ok)

/-- `state_dispatch_requests` (plc.c:910-976). -/
def state_dispatch_requests (env : Env) (plc : PlcState) : PlcState × Status :=
  if plc.is_terminating then
    if plc.is_connected then
      ({ plc with state_func := StateId.start_disconnect }, Status.Pending)
    else
      ({ plc with state_func := StateId.terminate }, Status.Ok)
  else if plc.is_connected = true ∧ plc.next_idle_timeout < env.now then
    ({ plc with state_func := StateId.start_disconnect }, Status.Pending)
  else if plc.next_retry_time > env.now then
    (plc, Status.Ok)
  else if plc.request_list ≠ [] then
    if plc.is_connected = false then
      ({ plc with state_func := StateId.start_connect }, Status.Pending)
    else
      ({ plc with state_func := StateId.reserve_space_for_tag_request }, Status.Pending)
  else
    ({ plc with state_func := StateId.dispatch }, Status.Ok)

/-- `state_reserve_space_for_tag_request` (plc.c:979-1011).  The locals
`data_start`, `data_end` and `req_id` are initialised to 0 and handed to the
top layer's `reserve_space`. -/
def state_reserve_space_for_tag_request (env : Env) (plc : PlcState) : PlcState × Status :=
  let r := env.reserve_space 0 0 0 0
  if r.rc ≠ Status.Ok then
    DISCONNECT_ON_ERROR env.now plc
  else
    ({ plc with payload_start := r.data_start
              , payload_end := r.data_end
              , current_request_id := r.req_id
              , state_func := StateId.build_tag_request }, Status.Pending)

/-- Outcome of the packing loop of `state_build_tag_request`, describing how
the `do { ... } while(!done)` loop of plc.c:1027-1105 exits:
`dispatch_pending` for the `CHECK_TERMINATION` / empty-queue exits,
`disconnect_err` for a `DISCONNECT_ON_ERROR` break taken inside the loop
(before the payload is committed), and `send e` for the commit path that
stores `payload_end := e` and arms the socket write. -/
inductive BuildOutcome where
  | dispatch_pending
  | disconnect_err
  | send (e : Int)
deriving DecidableEq, Repr

/-- The packing loop of `state_build_tag_request` (plc.c:1027-1105).
Walks the request queue (`current_request = current_request->next` each
round), calling each request's `build_request` and then the stack's
`build_layer`.  Returns the request-list suffix with the `req_id`
assignments performed by plc.c:1063, plus the exit outcome.  `idx` counts
the `build_layer` calls of this invocation. -/
def build_tag_loop (env : Env) (terminating : Bool) (reqs : List Request)
    (data_start data_end old_data_end req_id : Int) (first_try : Bool)
    (idx : Nat) : List Request × BuildOutcome :=
  match reqs with
  | [] => ([], BuildOutcome.dispatch_pending)
  | current :: rest =>
    if terminating then
      (current :: rest, BuildOutcome.dispatch_pending)
    else
      let br := env.build_request current.addr data_start data_end req_id
      if br.rc ≠ Status.Ok ∧ br.rc ≠ Status.TooSmall then
        (current :: rest, BuildOutcome.disconnect_err)
      else if br.rc = Status.TooSmall ∧ first_try then
        (current :: rest, BuildOutcome.disconnect_err)
      else
        let ds1 := br.data_start
        let de1 := if br.rc = Status.TooSmall then old_data_end else br.data_end
        let ode1 := if br.rc = Status.TooSmall then old_data_end else br.data_end
        let current1 : Request := { current with req_id := req_id }
        let bl := env.build_layer idx ds1 de1 req_id
        if bl.rc ≠ Status.Ok ∧ bl.rc ≠ Status.Pending then
          (current1 :: rest, BuildOutcome.disconnect_err)
        else if bl.rc = Status.Ok then
          if terminating then (current1 :: rest, BuildOutcome.dispatch_pending)
          else (current1 :: rest, BuildOutcome.send bl.data_end)
        else
          if rest.isEmpty then
            if terminating then (current1 :: rest, BuildOutcome.dispatch_pending)
            else (current1 :: rest, BuildOutcome.send ode1)
          else
            let next := build_tag_loop env terminating rest
              bl.data_start bl.data_end ode1 bl.req_id false (idx + 1)
            (current1 :: next.1, next.2)

/-- `state_build_tag_request` (plc.c:1014-1110).  The locals are seeded from
the payload markers reserved in the previous state; on the send path the
final `data_end` is committed to `payload_end`, the state advances to
`state_tag_request_sent`, and the socket write completion callback is
registered (counted by the `write_arms` ghost field on success; a failed
registration takes `DISCONNECT_ON_ERROR` after the commit). -/
def state_build_tag_request (env : Env) (plc : PlcState) : PlcState × Status :=
  let lp := build_tag_loop env plc.is_terminating plc.request_list
    plc.payload_start plc.payload_end plc.payload_end plc.current_request_id
    true 0
  let plc1 := { plc with request_list := lp.1 }
  match lp.2 with
  | BuildOutcome.dispatch_pending =>
    ({ plc1 with state_func := StateId.dispatch }, Status.Pending)
  | BuildOutcome.disconnect_err =>
    DISCONNECT_ON_ERROR env.now plc1
  | BuildOutcome.send e =>
    let plc2 := { plc1 with payload_end := e
                          , state_func := StateId.tag_request_sent }
    if env.write_arm_rc ≠ Status.Ok then
      DISCONNECT_ON_ERROR env.now plc2
    else
      ({ plc2 with write_arms := plc2.write_arms + 1 }, Status.Ok)

/-- `state_tag_request_sent` (plc.c:1114-1153): check the socket write
status, reserve space for the response (outputs discarded into locals),
zero the payload markers and arm the socket read. -/
def state_tag_request_sent (env : Env) (plc : PlcState) : PlcState × Status :=
  if env.socket_status = Status.Pending then
    (plc, Status.Ok)
  else if env.socket_status ≠ Status.Ok then
    DISCONNECT_ON_ERROR env.now plc
  else
    let r := env.reserve_space 0 0 0 0
    if r.rc ≠ Status.Ok then
      DISCONNECT_ON_ERROR env.now plc
    else
      let plc1 := { plc with state_func := StateId.tag_response_ready
                           , payload_end := 0, payload_start := 0 }
      if env.read_arm_rc ≠ Status.Ok then
        DISCONNECT_ON_ERROR env.now plc1
      else
        ({ plc1 with read_arms := plc1.read_arms + 1 }, Status.Ok)

/-- `state_tag_response_ready` (plc.c:1157-1246).  The body is a
`do { ... } while(!done)` loop, but the source initialises `done = true`
(plc.c:1163) and no branch ever clears it, so the body runs exactly once;
the definition is that single pass.  `process_response` is handed the locals
`(data_start, data_end, req_id) = (0, payload_end, 0)`; only `PLCTAG_STATUS_OK`
and `PLCTAG_ERR_PARTIAL` escape the `DISCONNECT_ON_ERROR` at plc.c:1183.
On OK the returned `req_id` is matched against the queue head: on a match
the head is unlinked and its `process_response` callback is invoked on the
returned slice (logged in `delivered`); on a mismatch the response is
dropped.  Either way the state returns to dispatch with
`PLCTAG_STATUS_PENDING`. -/
def state_tag_response_ready (env : Env) (plc : PlcState) : PlcState × Status :=
  if plc.is_terminating then
    ({ plc with state_func := StateId.dispatch }, Status.Pending)
  else if env.socket_status = Status.Pending then
    (plc, Status.Ok)
  else if env.socket_status ≠ Status.Ok then
    DISCONNECT_ON_ERROR env.now plc
  else
    let pr := env.process_response 0 0 plc.payload_end 0
    if pr.rc ≠ Status.Ok ∧ pr.rc ≠ Status.Partial then
      DISCONNECT_ON_ERROR env.now plc
    else if pr.rc = Status.Partial then
      let plc1 := { plc with state_func := StateId.tag_response_ready }
      if env.read_arm_rc ≠ Status.Ok then
        DISCONNECT_ON_ERROR env.now plc1
      else
        ({ plc1 with read_arms := plc1.read_arms + 1 }, Status.Ok)
    else
      match plc.request_list with
      | request :: rest =>
        if pr.req_id = request.req_id then
          let plc1 := { plc with request_list := rest
                               , delivered := plc.delivered ++
                                   [(request.addr, pr.data_start, pr.data_end)] }
          let rr := env.request_process_response request.addr pr.data_start
                      pr.data_end request.req_id
          if rr.rc ≠ Status.Ok then
            DISCONNECT_ON_ERROR env.now plc1
          else
            ({ plc1 with state_func := StateId.dispatch }, Status.Pending)
        else
          ({ plc with state_func := StateId.dispatch }, Status.Pending)
      | [] =>
        ({ plc with state_func := StateId.dispatch }, Status.Pending)

/-- `state_start_connect` (plc.c:1254-1291): `CHECK_TERMINATION`, two
`CONTINUE_UNLESS` gates (retry time not yet past, already connected),
socket creation if needed, layer initialisation, then arming of the
connection-ready callback. -/
def state_start_connect (env : Env) (plc : PlcState) : PlcState × Status :=
  if plc.is_terminating then
    ({ plc with state_func := StateId.dispatch }, Status.Pending)
  else if plc.next_retry_time > env.now then
    ({ plc with state_func := StateId.dispatch }, Status.Pending)
  else if plc.is_connected = true then
    ({ plc with state_func := StateId.dispatch }, Status.Pending)
  else if plc.has_socket = false ∧ env.socket_create_rc ≠ Status.Ok then
    RESET_ON_ERROR env.now plc
  else
    let plc1 := { plc with has_socket := true }
    if env.init_rc ≠ Status.Ok then
      DISCONNECT_ON_ERROR env.now plc1
    else
      let plc2 := { plc1 with state_func := StateId.build_layer_connect_request }
      if env.conn_arm_rc ≠ Status.Ok then
        DISCONNECT_ON_ERROR env.now plc2
      else
        (plc2, Status.Ok)

/-- `state_build_layer_connect_request` (plc.c:1295-1346).  The payload
markers are zeroed and then handed by reference to the top layer's
`connect`: OK means every layer is connected (set `is_connected`, back to
dispatch, yield), `pending` means a handshake frame must be emitted:
`build_layer` runs (again on the plc fields, including
`current_request_id`) and the write completion callback is armed. -/
def state_build_layer_connect_request (env : Env) (plc : PlcState) : PlcState × Status :=
  if plc.is_terminating then
    ({ plc with state_func := StateId.dispatch }, Status.Pending)
  else if env.socket_status = Status.Pending then
    (plc, Status.Ok)
  else if env.socket_status ≠ Status.Ok then
    DISCONNECT_ON_ERROR env.now plc
  else
    let cr := env.connect_op 0 0 0
    let plc1 := { plc with payload_start := cr.data_start
                         , payload_end := cr.data_end }
    if cr.rc ≠ Status.Ok ∧ cr.rc ≠ Status.Pending then
      DISCONNECT_ON_ERROR env.now plc1
    else if cr.rc = Status.Ok then
      ({ plc1 with is_connected := true, state_func := StateId.dispatch }, Status.Ok)
    else
      let bl := env.build_layer 0 plc1.payload_start plc1.payload_end
                  plc1.current_request_id
      let plc2 := { plc1 with payload_start := bl.data_start
                            , payload_end := bl.data_end
                            , current_request_id := bl.req_id }
      if bl.rc ≠ Status.Ok then
        DISCONNECT_ON_ERROR env.now plc2
      else
        let plc3 := { plc2 with state_func := StateId.layer_connect_request_sent }
        if env.write_arm_rc ≠ Status.Ok then
          DISCONNECT_ON_ERROR env.now plc3
        else
          ({ plc3 with write_arms := plc3.write_arms + 1 }, Status.Ok)

/-- `state_layer_connect_request_sent` (plc.c:1350-1381): check the write
status, zero the payload markers, arm the read completion callback. -/
def state_layer_connect_request_sent (env : Env) (plc : PlcState) : PlcState × Status :=
  if plc.is_terminating then
    ({ plc with state_func := StateId.dispatch }, Status.Pending)
  else if env.socket_status = Status.Pending then
    (plc, Status.Ok)
  else if env.socket_status ≠ Status.Ok then
    DISCONNECT_ON_ERROR env.now plc
  else
    let plc1 := { plc with payload_end := 0, payload_start := 0
                         , state_func := StateId.layer_connect_response_ready }
    if env.read_arm_rc ≠ Status.Ok then
      DISCONNECT_ON_ERROR env.now plc1
    else
      ({ plc1 with read_arms := plc1.read_arms + 1 }, Status.Ok)

/-- `state_layer_connect_response_ready` (plc.c:1385-1423).
`process_response` is handed locals `(0, payload_end)` plus
`&plc->current_request_id` (a plc field, so its output is committed).
`PLCTAG_ERR_PARTIAL` is treated as a spurious wakeup (yield), `retry` loops
back to `state_build_layer_connect_request`, other errors disconnect, OK
falls through with the state unchanged. -/
def state_layer_connect_response_ready (env : Env) (plc : PlcState) : PlcState × Status :=
  if plc.is_terminating then
    ({ plc with state_func := StateId.dispatch }, Status.Pending)
  else if env.socket_status = Status.Pending then
    (plc, Status.Ok)
  else if env.socket_status ≠ Status.Ok then
    DISCONNECT_ON_ERROR env.now plc
  else
    let pr := env.process_response 0 0 plc.payload_end plc.current_request_id
    let plc1 := { plc with current_request_id := pr.req_id }
    if pr.rc = Status.Partial then
      (plc1, Status.Ok)
    else if pr.rc = Status.Retry then
      ({ plc1 with state_func := StateId.build_layer_connect_request }, Status.Pending)
    else if pr.rc ≠ Status.Ok then
      DISCONNECT_ON_ERROR env.now plc1
    else
      (plc1, Status.Ok)

/-- `state_start_disconnect` (plc.c:1431-1451): `CONTINUE_UNLESS` already
disconnected, zero the payload markers and fall into the disconnect build
state. -/
def state_start_disconnect (_env : Env) (plc : PlcState) : PlcState × Status :=
  if plc.is_connected = false then
    ({ plc with state_func := StateId.dispatch }, Status.Pending)
  else
    ({ plc with payload_end := 0, payload_start := 0
              , state_func := StateId.build_layer_disconnect_request }, Status.Pending)

/-- `state_build_layer_disconnect_request` (plc.c:1455-1496).  The locals
start as `(data_start, data_end) = (0, data_capacity)`; `disconnect` OK
means the whole stack is disconnected (clear `is_connected`, yield with the
state unchanged), `pending` means a disconnect frame must be sent:
`build_layer` runs, `payload_start := 0`, `payload_end := data_end`, and the
write completion callback is armed.  Failures here use `RESET_ON_ERROR`. -/
def state_build_layer_disconnect_request (env : Env) (plc : PlcState) : PlcState × Status :=
  let dr := env.disconnect_op 0 0 plc.data_capacity
  if dr.rc ≠ Status.Ok ∧ dr.rc ≠ Status.Pending then
    RESET_ON_ERROR env.now plc
  else if dr.rc = Status.Ok then
    ({ plc with is_connected := false }, Status.Ok)
  else
    let bl := env.build_layer 0 dr.data_start dr.data_end 0
    if bl.rc ≠ Status.Ok then
      RESET_ON_ERROR env.now plc
    else
      let plc1 := { plc with payload_start := 0, payload_end := bl.data_end
                           , state_func := StateId.layer_disconnect_request_sent }
      if env.write_arm_rc ≠ Status.Ok then
        RESET_ON_ERROR env.now plc1
      else
        ({ plc1 with write_arms := plc1.write_arms + 1 }, Status.Ok)

/-- `state_layer_disconnect_request_sent` (plc.c:1500-1529): check the write
status, zero the payload markers, arm the read completion callback; errors
use `RESET_ON_ERROR`. -/
def state_layer_disconnect_request_sent (env : Env) (plc : PlcState) : PlcState × Status :=
  if env.socket_status = Status.Pending then
    (plc, Status.Ok)
  else if env.socket_status ≠ Status.Ok then
    RESET_ON_ERROR env.now plc
  else
    let plc1 := { plc with payload_end := 0, payload_start := 0
                         , state_func := StateId.layer_disconnect_response_ready }
    if env.read_arm_rc ≠ Status.Ok then
      RESET_ON_ERROR env.now plc1
    else
      ({ plc1 with read_arms := plc1.read_arms + 1 }, Status.Ok)

/-- `state_layer_disconnect_response_ready` (plc.c:1533-1580).
`process_response` writes `&plc->current_request_id`; `partial` re-arms the
read, `pending` loops back to build the next layer's disconnect request, OK
clears `is_connected` and yields. -/
def state_layer_disconnect_response_ready (env : Env) (plc : PlcState) : PlcState × Status :=
  if env.socket_status = Status.Pending then
    (plc, Status.Ok)
  else if env.socket_status ≠ Status.Ok then
    RESET_ON_ERROR env.now plc
  else
    let pr := env.process_response 0 0 plc.payload_end plc.current_request_id
    let plc1 := { plc with current_request_id := pr.req_id }
    if pr.rc = Status.Partial then
      let plc2 := { plc1 with state_func := StateId.layer_disconnect_response_ready }
      if env.read_arm_rc ≠ Status.Ok then
        RESET_ON_ERROR env.now plc2
      else
        ({ plc2 with read_arms := plc2.read_arms + 1 }, Status.Ok)
    else if pr.rc ≠ Status.Ok ∧ pr.rc ≠ Status.Pending then
      RESET_ON_ERROR env.now plc1
    else if pr.rc = Status.Pending then
      ({ plc1 with state_func := StateId.build_layer_disconnect_request }, Status.Pending)
    else
      ({ plc1 with is_connected := false }, Status.Ok)

/-- `state_terminate` (plc.c:1588-1595): does nothing and yields. -/
def state_terminate (_env : Env) (plc : PlcState) : PlcState × Status :=
  (plc, Status.Ok)

/-- One step of the engine: run the current state function (dereference of
`plc->state_func`). -/
def run_state (env : Env) (plc : PlcState) : PlcState × Status :=
  match plc.state_func with
  | StateId.dispatch => state_dispatch_requests env plc
  | StateId.reserve_space_for_tag_request => state_reserve_space_for_tag_request env plc
  | StateId.build_tag_request => state_build_tag_request env plc
  | StateId.tag_request_sent => state_tag_request_sent env plc
  | StateId.tag_response_ready => state_tag_response_ready env plc
  | StateId.start_connect => state_start_connect env plc
  | StateId.build_layer_connect_request => state_build_layer_connect_request env plc
  | StateId.layer_connect_request_sent => state_layer_connect_request_sent env plc
  | StateId.layer_connect_response_ready => state_layer_connect_response_ready env plc
  | StateId.start_disconnect => state_start_disconnect env plc
  | StateId.build_layer_disconnect_request => state_build_layer_disconnect_request env plc
  | StateId.layer_disconnect_request_sent => state_layer_disconnect_request_sent env plc
  | StateId.layer_disconnect_response_ready => state_layer_disconnect_response_ready env plc
  | StateId.terminate => state_terminate env plc

/-- `plc_state_runner` (plc.c:861-875): loop the current state function
while it returns `PLCTAG_STATUS_PENDING`.  `fuel` bounds the unrolling (the
C loop has no bound; every theorem below uses a concrete sufficient fuel). -/
def plc_state_runner : Nat → Env → PlcState → PlcState
  | 0, _, plc => plc
  | Nat.succ fuel, env, plc =>
    let r := run_state env plc
    if r.2 = Status.Pending then plc_state_runner fuel env r.1 else r.1

/-- `plc_start_request` (plc.c:608-655).  Walks the queue comparing request
pointers; if the request is already linked it sets the local `rc` to
`PLCTAG_ERR_BUSY` (used only in the debug log) and breaks, otherwise it
appends the request at the tail with `req_id := -1`.  Either way the
function ends with `return PLCTAG_STATUS_OK;` (plc.c:654).  The conditional
`plc_state_runner` call of plc.c:643-645 is modelled with the given fuel
(it fires only when `state_func` is the dispatcher). -/
def plc_start_request (env : Env) (fuel : Nat) (plc : PlcState)
    (request : Request) : PlcState × Status :=
  if plc.request_list.any (fun r => r.addr = request.addr) then
    (plc, Status.Ok)
  else
    let plc1 := { plc with request_list :=
      plc.request_list ++ [{ request with req_id := -1 }] }
    let plc2 := if plc1.state_func = StateId.dispatch
                then plc_state_runner fuel env plc1 else plc1
    (plc2, Status.Ok)

/-- `plc_stop_request` (plc.c:661-692): unlink the request if present,
otherwise report `PLCTAG_ERR_NOT_FOUND`. -/
def plc_stop_request (plc : PlcState) (request : Request) : PlcState × Status :=
  if plc.request_list.any (fun r => r.addr = request.addr) then
    ({ plc with request_list :=
       plc.request_list.filter (fun r => r.addr ≠ request.addr) }, Status.Ok)
  else
    (plc, Status.NotFound)

/-- `plc_get_buffer_size` (plc.c:537-555): returns `plc->payload_end`, not
`plc->data_capacity`. -/
def plc_get_buffer_size (plc : PlcState) : Int :=
  plc.payload_end

/-- `mem_realloc` as used by `plc_set_buffer_size`: the old contents are
kept as a prefix; the fresh tail is unspecified in C and modelled as
zeros. -/
def mem_realloc (data : List Nat) (n : Nat) : List Nat :=
  data.take n ++ List.replicate (n - data.length) 0

/-- `plc_set_buffer_size` (plc.c:559-603): refuse non-positive sizes with
`PLCTAG_ERR_TOO_SMALL`; grow (reallocate and set `data_capacity`) only when
the requested size exceeds the current capacity; otherwise do nothing.
Allocation is assumed to succeed (the `PLCTAG_ERR_NO_MEM` path is an
out-of-memory condition outside the model). -/
def plc_set_buffer_size (plc : PlcState) (buffer_size : Int) : PlcState × Status :=
  if buffer_size ≤ 0 then
    (plc, Status.TooSmall)
  else if buffer_size > plc.data_capacity then
    ({ plc with data := mem_realloc plc.data buffer_size.toNat
              , data_capacity := buffer_size }, Status.Ok)
  else
    (plc, Status.Ok)

/-- ASCII lower-casing of one character, as `tolower` does for the ASCII
range. -/
def ch_lower (c : Char) : Char :=
  if 'A' ≤ c ∧ c ≤ 'Z' then Char.ofNat (c.toNat + 32) else c

/-- Three-way case-insensitive comparison on character lists. -/
def str_cmp_i_chars : List Char → List Char → Int
  | [], [] => 0
  | [], _ :: _ => -1
  | _ :: _, [] => 1
  | a :: as, b :: bs =>
    if (ch_lower a).toNat < (ch_lower b).toNat then -1
    else if (ch_lower b).toNat < (ch_lower a).toNat then 1
    else str_cmp_i_chars as bs

/-- Modelled from the spec: `str_cmp_i` lives in `util/string.c`, which is
not under `src/`; the spec describes the registry lookup as comparing keys
"case-insensitively", so `str_cmp_i` is a case-insensitive three-way string
comparison returning 0 exactly on strings equal up to ASCII case. -/
def str_cmp_i (a b : String) : Int :=
  str_cmp_i_chars a.data b.data

/-- A registry entry: a live PLC identified by its key.  Reference counts
are not modelled; `plc_get` returns the entry it hands out (after `rc_inc`)
together with the updated list. -/
structure RegEntry where
  key : String
deriving DecidableEq, Repr

/-- The lookup loop of `plc_get` (plc.c:247-252), verbatim: walk the list
and break — with the comment "found it." — on the first entry whose key
makes `str_cmp_i(plc_key, plc->key) != 0`. -/
def plc_get_lookup (plc_key : String) : List RegEntry → Option RegEntry
  | [] => none
  | p :: rest =>
    if str_cmp_i plc_key p.key ≠ 0 then some p
    else plc_get_lookup plc_key rest

/-- The registry step of `plc_get` (plc.c:243-379), reduced to its data
effect: under the registry mutex, run the lookup loop; a found entry is
returned with an extra reference and the list unchanged; otherwise a new
PLC carrying the search key is allocated and linked at the head
(plc.c:374-375).  (Attribute parsing, the dialect constructor and timer
setup do not touch the registry list and are elided.) -/
def plc_get (plc_key : String) (plc_list : List RegEntry) :
    RegEntry × List RegEntry :=
  match plc_get_lookup plc_key plc_list with
  | some plc => (plc, plc_list)
  | none => ({ key := plc_key }, { key := plc_key } :: plc_list)

/-- A freshly created PLC as handed out by `plc_get`: every field of the
allocation is zero-filled (`rc_alloc`, util/rc.c) and `plc_get` then sets
`state_func = state_dispatch_requests` (plc.c:371).  Nothing in plc.c ever
assigns `retry_interval_ms`, `next_retry_time` or `next_idle_timeout`, so
they remain 0. -/
def freshPlc : PlcState where
  request_list := []
  current_request_id := 0
  state_func := StateId.dispatch
  data := []
  data_capacity := 0
  payload_end := 0
  payload_start := 0
  has_socket := false
  retry_interval_ms := 0
  next_retry_time := 0
  idle_timeout_ms := DEFAULT_IDLE_TIMEOUT_MS
  next_idle_timeout := 0
  is_connected := false
  is_terminating := false
  delivered := []
  write_arms := 0
  read_arms := 0

/-! ### Specification-side definitions and concrete inputs for the claims -/

/-- An all-zero callback result. -/
def zeroResult : LayerResult :=
  { rc := Status.Ok, data_start := 0, data_end := 0, req_id := 0 }

/-- A neutral oracle environment: every socket operation succeeds and every
callback answers `PLCTAG_STATUS_OK` with zero offsets.  Concrete scenarios
below override individual fields. -/
def baseEnv : Env where
  now := 0
  socket_status := Status.Ok
  socket_create_rc := Status.Ok
  init_rc := Status.Ok
  conn_arm_rc := Status.Ok
  write_arm_rc := Status.Ok
  read_arm_rc := Status.Ok
  reserve_space := fun _ _ _ _ => zeroResult
  build_layer := fun _ _ _ _ => zeroResult
  connect_op := fun _ _ _ => zeroResult
  disconnect_op := fun _ _ _ => zeroResult
  process_response := fun _ _ _ _ => zeroResult
  build_request := fun _ _ _ _ => zeroResult
  request_process_response := fun _ _ _ _ => zeroResult

/-- Next-step decision of the dispatcher as the amended C7 claim words it:
terminating and connected goes to disconnect; terminating and not connected
goes to terminate; connected with the idle deadline passed goes to
disconnect; a retry deadline still in the future makes the engine stay in
dispatch and yield even with queued work; otherwise a non-empty queue goes
to connect (if disconnected) or to reserving request space (if connected);
with nothing to do the engine stays in dispatch and yields. -/
def dispatchSpec (now : Int) (plc : PlcState) : PlcState × Status :=
  if plc.is_terminating ∧ plc.is_connected then
    ({ plc with state_func := StateId.start_disconnect }, Status.Pending)
  else if plc.is_terminating ∧ ¬plc.is_connected then
    ({ plc with state_func := StateId.terminate }, Status.Ok)
  else if plc.is_connected ∧ plc.next_idle_timeout < now then
    ({ plc with state_func := StateId.start_disconnect }, Status.Pending)
  else if now < plc.next_retry_time then
    (plc, Status.Ok)
  else if plc.request_list ≠ [] ∧ ¬plc.is_connected then
    ({ plc with state_func := StateId.start_connect }, Status.Pending)
  else if plc.request_list ≠ [] ∧ plc.is_connected then
    ({ plc with state_func := StateId.reserve_space_for_tag_request }, Status.Pending)
  else
    ({ plc with state_func := StateId.dispatch }, Status.Ok)

/-- Invariant I2 of the spec on the payload markers (with the implicit
lower bound that makes it inductive): `0 ≤ payload_start ≤ payload_end ≤
data_capacity`. -/
def Inv (plc : PlcState) : Prop :=
  0 ≤ plc.payload_start ∧ plc.payload_start ≤ plc.payload_end ∧
    plc.payload_end ≤ plc.data_capacity

/-- A callback result whose offsets lie within the buffer bounds. -/
def OutBounded (cap : Int) (r : LayerResult) : Prop :=
  0 ≤ r.data_start ∧ r.data_start ≤ r.data_end ∧ r.data_end ≤ cap

/-- The C8 claim's hypothesis: every layer and request callback keeps the
offsets it is handed within the buffer bounds (whatever it is handed, its
answer satisfies `0 ≤ data_start ≤ data_end ≤ cap`). -/
def EnvBounded (cap : Int) (env : Env) : Prop :=
  (∀ i s e q, OutBounded cap (env.reserve_space i s e q)) ∧
  (∀ i s e q, OutBounded cap (env.build_layer i s e q)) ∧
  (∀ i s e, OutBounded cap (env.connect_op i s e)) ∧
  (∀ i s e, OutBounded cap (env.disconnect_op i s e)) ∧
  (∀ i s e q, OutBounded cap (env.process_response i s e q)) ∧
  (∀ a s e q, OutBounded cap (env.build_request a s e q)) ∧
  (∀ a s e q, OutBounded cap (env.request_process_response a s e q))

/-- Strengthened hypothesis forced by the C8 counterexample: in addition,
`build_request` and `build_layer` never move the start offset backwards
(when handed an in-bounds start offset, the returned start offset is at
least the handed one). -/
def EnvMonotone (cap : Int) (env : Env) : Prop :=
  (∀ a s e q, 0 ≤ s → s ≤ cap → s ≤ (env.build_request a s e q).data_start) ∧
  (∀ i s e q, 0 ≤ s → s ≤ cap → s ≤ (env.build_layer i s e q).data_start)

/-- `Inv` holds after every one of the engine's state functions. -/
def InvAll (env : Env) (plc : PlcState) : Prop :=
  Inv (state_dispatch_requests env plc).1 ∧
  Inv (state_reserve_space_for_tag_request env plc).1 ∧
  Inv (state_build_tag_request env plc).1 ∧
  Inv (state_tag_request_sent env plc).1 ∧
  Inv (state_tag_response_ready env plc).1 ∧
  Inv (state_start_connect env plc).1 ∧
  Inv (state_build_layer_connect_request env plc).1 ∧
  Inv (state_layer_connect_request_sent env plc).1 ∧
  Inv (state_layer_connect_response_ready env plc).1 ∧
  Inv (state_start_disconnect env plc).1 ∧
  Inv (state_build_layer_disconnect_request env plc).1 ∧
  Inv (state_layer_disconnect_request_sent env plc).1 ∧
  Inv (state_layer_disconnect_response_ready env plc).1 ∧
  Inv (state_terminate env plc).1

/-- C1 scenario: a read completed with two responses packed in the buffer;
the stack's `process_response` reports the first one with
`PLCTAG_STATUS_PENDING` ("multiple sub-packets remain", plc.c:1177-1180). -/
def envC1 : Env :=
  { baseEnv with process_response := fun _ _ _ _ =>
      { rc := Status.Pending, data_start := 4, data_end := 14, req_id := 7 } }

/-- C1 scenario PLC: connected, two queued requests with ids 7 and 8,
24 bytes of response data in the buffer. -/
def plcC1 : PlcState :=
  { freshPlc with is_connected := true
                , state_func := StateId.tag_response_ready
                , request_list := [{ addr := 1, req_id := 7 },
                                   { addr := 2, req_id := 8 }]
                , payload_end := 24
                , data_capacity := 64
                , retry_interval_ms := 1000 }

/-- C3 scenario environment at time 1000: the read succeeded and the stack
hands back one complete response for request id 7 on slice `[4,14)`. -/
def envC3 : Env :=
  { baseEnv with now := 1000
               , process_response := fun _ _ _ _ =>
                   { rc := Status.Ok, data_start := 4, data_end := 14, req_id := 7 } }

/-- The same environment one millisecond later, when the dispatcher next
runs. -/
def envC3b : Env :=
  { envC3 with now := 1001 }

/-- C3 scenario PLC: connected, one queued request with id 7, a complete
response in the buffer, default idle timeout. -/
def plcC3 : PlcState :=
  { freshPlc with is_connected := true
                , state_func := StateId.tag_response_ready
                , request_list := [{ addr := 1, req_id := 7 }]
                , payload_end := 14
                , data_capacity := 64 }

/-- C6 scenario PLC: one request (pointer identity 1) already queued; the
state function is not the dispatcher, so the conditional runner call of
plc.c:643-645 is not reached and the model is exact. -/
def plc6 : PlcState :=
  { freshPlc with state_func := StateId.tag_request_sent
                , request_list := [{ addr := 1, req_id := 5 }] }

/-- C7 counterexample PLC: idle-free, disconnected, with one queued request
but a retry deadline (error backoff) still 50 ms in the future. -/
def plc7 : PlcState :=
  { freshPlc with request_list := [{ addr := 1, req_id := -1 }]
                , next_retry_time := 100 }

/-- C7 counterexample environment: the current time is 50, before the retry
deadline. -/
def env7 : Env :=
  { baseEnv with now := 50 }

/-- C4 witness environment, first-request-too-small scenario: the only
queued request answers `PLCTAG_ERR_TOO_SMALL`. -/
def envC4a : Env :=
  { baseEnv with build_request := fun _ _ _ _ =>
      { rc := Status.TooSmall, data_start := 0, data_end := 0, req_id := 0 } }

/-- C4 witness PLC for the first-request-too-small scenario: capacity 20,
reserved window `[0,20)`, one queued request. -/
def plcC4a : PlcState :=
  { freshPlc with is_connected := true
                , state_func := StateId.build_tag_request
                , request_list := [{ addr := 1, req_id := -1 }]
                , data_capacity := 20
                , payload_end := 20
                , retry_interval_ms := 1000 }

/-- C4 witness environment, second-request-too-small scenario: request 1
builds 10 payload bytes into `[4,14)`, request 2 answers too-small; the
stack allows another packet after the first (`pending`) and finalises the
frame on the second `build_layer` call. -/
def envC4b : Env :=
  { baseEnv with
      build_request := fun a _ _ _ =>
        if a = 1 then { rc := Status.Ok, data_start := 4, data_end := 14, req_id := 0 }
        else { rc := Status.TooSmall, data_start := 14, data_end := 14, req_id := 0 }
    , build_layer := fun i s e _ =>
        if i = 0 then { rc := Status.Pending, data_start := s, data_end := e, req_id := 1 }
        else { rc := Status.Ok, data_start := 0, data_end := e, req_id := 1 } }

/-- C4 witness PLC for the second-request-too-small scenario: reserved
window `[4,60)` in a 64-byte buffer, two queued requests. -/
def plcC4b : PlcState :=
  { freshPlc with is_connected := true
                , state_func := StateId.build_tag_request
                , request_list := [{ addr := 1, req_id := -1 },
                                   { addr := 2, req_id := -1 }]
                , data_capacity := 64
                , payload_start := 4
                , payload_end := 60 }

/-- C8 counterexample environment: every callback answers offsets within
the 64-byte buffer bounds, but `build_request` and `build_layer` answer the
window `[0,5)`, before the reserved payload start. -/
def envC8x : Env :=
  { baseEnv with
      build_request := fun _ _ _ _ =>
        { rc := Status.Ok, data_start := 0, data_end := 5, req_id := 0 }
    , build_layer := fun _ _ _ _ =>
        { rc := Status.Ok, data_start := 0, data_end := 5, req_id := 0 } }

/-- C8 counterexample PLC: reserved payload window `[10,60)` in a 64-byte
buffer, one queued request, about to build the tag request. -/
def plcC8x : PlcState :=
  { freshPlc with request_list := [{ addr := 1, req_id := -1 }]
                , is_connected := true
                , state_func := StateId.build_tag_request
                , data_capacity := 64
                , payload_start := 10
                , payload_end := 60 }

/-- A bounded, start-monotone callback answer over a buffer of capacity
`cap`: the start offset is the handed one clamped into `[0, cap]`, the end
offset is `cap`. -/
def clampResult (cap s : Int) : LayerResult :=
  { rc := Status.Ok
  , data_start := if s < 0 then 0 else if cap < s then cap else s
  , data_end := cap
  , req_id := 0 }

/-- C8 witness environment: every callback is bounded and start-monotone
over a 64-byte buffer. -/
def envC8w : Env :=
  { baseEnv with
      reserve_space := fun _ s _ _ => clampResult 64 s
    , build_layer := fun _ s _ _ => clampResult 64 s
    , connect_op := fun _ s _ => clampResult 64 s
    , disconnect_op := fun _ s _ => clampResult 64 s
    , process_response := fun _ s _ _ => clampResult 64 s
    , build_request := fun _ s _ _ => clampResult 64 s
    , request_process_response := fun _ s _ _ => clampResult 64 s }

/-- C8 witness PLC: a fresh 64-byte-buffer PLC with one queued request. -/
def plcC8w : PlcState :=
  { freshPlc with data_capacity := 64
                , request_list := [{ addr := 1, req_id := -1 }] }

/-! ### Theorems -/

/-- C1: in `tag_resp_ready` the claim says a `pending` result from the
stack's `process_response` is not an error and makes the engine loop,
delivering the remaining packed responses to the queued requests in order.
The code instead treats `PLCTAG_STATUS_PENDING` as an error: with two
responses packed and the stack answering `pending`, the engine invokes no
request callback, leaves the queue untouched, applies the error backoff
(1000 → 2000 ms) and heads for `start_disconnect` — its demux loop cannot
iterate because `done` is initialised `true` and never cleared. -/
theorem C1_pending_response_disconnects :
    (state_tag_response_ready envC1 plcC1).1.state_func = StateId.start_disconnect ∧
    (state_tag_response_ready envC1 plcC1).1.delivered = [] ∧
    (state_tag_response_ready envC1 plcC1).1.request_list = plcC1.request_list ∧
    (state_tag_response_ready envC1 plcC1).1.retry_interval_ms = 2000 ∧
    (state_tag_response_ready envC1 plcC1).1.read_arms = 0 ∧
    (state_tag_response_ready envC1 plcC1).2 = Status.Pending := by
  decide

/-- C2: the registry lookup of `plc_get` breaks out of its loop when
`str_cmp_i` reports the keys as *different*, so (a) a search with a key
case-insensitively different from the only registered key returns that
foreign PLC instead of allocating a new one, and (b) a search with a key
case-insensitively equal to the registered key walks past it and allocates
a duplicate. -/
theorem C2_lookup_inverted :
    str_cmp_i "mb/gw2/p2" "ab/gw1/p1" ≠ 0 ∧
    plc_get "mb/gw2/p2" [{ key := "ab/gw1/p1" }] =
      ({ key := "ab/gw1/p1" }, [{ key := "ab/gw1/p1" }]) ∧
    str_cmp_i "AB/GW1/P1" "ab/gw1/p1" = 0 ∧
    (plc_get "AB/GW1/P1" [{ key := "ab/gw1/p1" }]).2 =
      [{ key := "AB/GW1/P1" }, { key := "ab/gw1/p1" }] := by
  decide

/-- C3: nothing in plc.c ever assigns `next_idle_timeout`, so even after a
response is successfully processed (the request callback runs, as witnessed
by the `delivered` log) the idle deadline stays at its initial 0, and the
very next dispatcher run — 1 ms later, far less than `idle_timeout_ms` —
drives the connected PLC into `start_disconnect`. -/
theorem C3_idle_timeout_never_armed :
    (state_tag_response_ready envC3 plcC3).1.delivered = [(1, 4, 14)] ∧
    (state_tag_response_ready envC3 plcC3).1.request_list = [] ∧
    (state_tag_response_ready envC3 plcC3).1.next_idle_timeout = plcC3.next_idle_timeout ∧
    (state_tag_response_ready envC3 plcC3).2 = Status.Pending ∧
    (state_tag_response_ready envC3 plcC3).1.is_connected = true ∧
    envC3b.now - envC3.now < plcC3.idle_timeout_ms ∧
    (state_dispatch_requests envC3b
      (state_tag_response_ready envC3 plcC3).1).1.state_func = StateId.start_disconnect := by
  decide

/-- C5: the error backoff of `DISCONNECT_ON_ERROR` / `RESET_ON_ERROR` only
doubles and clamps at the maximum; no code applies `MIN_RETRY_INTERVAL_MS`,
so from the never-initialised value 0 the retry interval stays 0, outside
the claimed interval `[1000, 16000]`. -/
theorem C5_no_retry_floor :
    backoff 0 = 0 ∧
    (DISCONNECT_ON_ERROR 0 freshPlc).1.retry_interval_ms = 0 ∧
    (RESET_ON_ERROR 0 freshPlc).1.retry_interval_ms = 0 ∧
    ¬(MIN_RETRY_INTERVAL_MS ≤ (DISCONNECT_ON_ERROR 0 freshPlc).1.retry_interval_ms) := by
  decide

/-- C6: `plc_start_request` on a request already linked in the queue leaves
the queue unchanged but returns `PLCTAG_STATUS_OK` (plc.c:654 returns the
constant, not the local `rc` that was set to `PLCTAG_ERR_BUSY`), not the
busy error the claim states; on a request not in the queue it appends it at
the tail with `req_id := -1` and returns ok. -/
theorem C6_start_request_returns_ok_when_busy :
    plc_start_request baseEnv 8 plc6 { addr := 1, req_id := 5 } = (plc6, Status.Ok) ∧
    Status.Ok ≠ Status.Busy ∧
    plc_start_request baseEnv 8 { freshPlc with state_func := StateId.tag_request_sent }
        { addr := 2, req_id := 99 } =
      ({ freshPlc with state_func := StateId.tag_request_sent
                     , request_list := [{ addr := 2, req_id := -1 }] }, Status.Ok) := by
  decide

/-- C7 counterexample: a disconnected, non-terminating PLC with a queued
request whose retry deadline is still in the future stays in `dispatch` and
yields; the claim as stated says the non-empty queue takes it to
`start_connect`. -/
theorem C7_counterexample :
    plc7.is_terminating = false ∧ plc7.is_connected = false ∧
    plc7.request_list ≠ [] ∧
    state_dispatch_requests env7 plc7 = (plc7, Status.Ok) ∧
    (state_dispatch_requests env7 plc7).1.state_func ≠ StateId.start_connect := by
  decide

/-- C7 (amended): the dispatcher's next state is exactly as the claim
states it once the error-backoff gate is added: terminating∧connected →
start_disconnect; terminating∧¬connected → terminate; connected with the
idle deadline passed → start_disconnect; a retry deadline still in the
future → stay in dispatch and yield; otherwise a non-empty queue →
start_connect when disconnected / reserve_space when connected; nothing to
do → stay in dispatch and yield. -/
theorem C7_dispatch_follows_spec :
    ∀ (env : Env) (plc : PlcState),
      state_dispatch_requests env plc = dispatchSpec env.now plc := by
  intro env plc
  unfold state_dispatch_requests dispatchSpec
  split_ifs <;> simp_all

/-- C9 helper: one `plc_set_buffer_size` call never shrinks the capacity. -/
theorem set_buffer_size_capacity_mono (plc : PlcState) (m : Int) :
    plc.data_capacity ≤ (plc_set_buffer_size plc m).1.data_capacity := by
  unfold plc_set_buffer_size
  split_ifs <;> simp
  omega

/-- C9 helper: capacity never decreases across any sequence of calls. -/
theorem set_buffer_size_foldl_mono (ns : List Int) : ∀ plc : PlcState,
    plc.data_capacity ≤
      (ns.foldl (fun s m => (plc_set_buffer_size s m).1) plc).data_capacity := by
  induction ns with
  | nil => intro plc; simp
  | cons m ms ih =>
    intro plc
    simp only [List.foldl]
    exact le_trans (set_buffer_size_capacity_mono plc m) (ih _)

/-- C9: `plc_set_buffer_size` returns `PLCTAG_ERR_TOO_SMALL` and changes
nothing on a non-positive request; it is a no-op returning ok when the
request is within the current capacity; it grows the buffer to exactly the
requested size when the request exceeds the capacity; and across any
sequence of calls the capacity never decreases. -/
theorem C9_set_buffer_size :
    (∀ (plc : PlcState) (n : Int), n ≤ 0 →
      plc_set_buffer_size plc n = (plc, Status.TooSmall)) ∧
    (∀ (plc : PlcState) (n : Int), 0 < n → n ≤ plc.data_capacity →
      plc_set_buffer_size plc n = (plc, Status.Ok)) ∧
    (∀ (plc : PlcState) (n : Int), 0 ≤ plc.data_capacity → plc.data_capacity < n →
      plc_set_buffer_size plc n =
        ({ plc with data := mem_realloc plc.data n.toNat, data_capacity := n },
          Status.Ok) ∧
      (plc_set_buffer_size plc n).1.data.length = n.toNat) ∧
    (∀ (plc : PlcState) (ns : List Int), plc.data_capacity ≤
      (ns.foldl (fun s m => (plc_set_buffer_size s m).1) plc).data_capacity) := by
  refine ⟨?_, ?_, ?_, fun plc ns => set_buffer_size_foldl_mono ns plc⟩
  · intro plc n h
    unfold plc_set_buffer_size
    simp [h]
  · intro plc n h1 h2
    unfold plc_set_buffer_size
    split_ifs <;> first | rfl | omega
  · intro plc n h0 h
    have heq : plc_set_buffer_size plc n =
        ({ plc with data := mem_realloc plc.data n.toNat, data_capacity := n },
          Status.Ok) := by
      unfold plc_set_buffer_size
      split_ifs <;> first | rfl | omega
    refine ⟨heq, ?_⟩
    rw [heq]
    simp [mem_realloc]
    omega

/-- C9 witness: the four clauses at concrete inputs. -/
theorem C9_set_buffer_size_witness :
    plc_set_buffer_size freshPlc (-3) = (freshPlc, Status.TooSmall) ∧
    plc_set_buffer_size plcC8w 10 = (plcC8w, Status.Ok) ∧
    plc_set_buffer_size freshPlc 8 =
      ({ freshPlc with data := mem_realloc freshPlc.data 8, data_capacity := 8 },
        Status.Ok) ∧
    (plc_set_buffer_size freshPlc 8).1.data.length = 8 ∧
    freshPlc.data_capacity ≤
      (([4, 2, 9] : List Int).foldl
        (fun s m => (plc_set_buffer_size s m).1) freshPlc).data_capacity :=
  ⟨C9_set_buffer_size.1 freshPlc (-3) (by decide),
   C9_set_buffer_size.2.1 plcC8w 10 (by decide) (by decide),
   (C9_set_buffer_size.2.2.1 freshPlc 8 (by decide) (by decide)).1,
   (C9_set_buffer_size.2.2.1 freshPlc 8 (by decide) (by decide)).2,
   C9_set_buffer_size.2.2.2 freshPlc [4, 2, 9]⟩

/-- C10: `plc_get_buffer_size` returns the `payload_end` marker, not the
capacity; `plc_set_buffer_size` never touches `payload_end`, so after a
growing call on a fresh PLC the getter still answers 0, not the new size —
the set/get pair is not a round-trip. -/
theorem C10_get_buffer_size :
    (∀ plc : PlcState, plc_get_buffer_size plc = plc.payload_end) ∧
    (∀ (plc : PlcState) (n : Int),
      plc_get_buffer_size (plc_set_buffer_size plc n).1 = plc.payload_end) ∧
    ((plc_set_buffer_size freshPlc 64).2 = Status.Ok ∧
     (plc_set_buffer_size freshPlc 64).1.data_capacity = 64 ∧
     plc_get_buffer_size (plc_set_buffer_size freshPlc 64).1 = 0 ∧
     (0 : Int) ≠ 64) := by
  refine ⟨fun plc => rfl, ?_, by decide⟩
  intro plc n
  unfold plc_set_buffer_size plc_get_buffer_size
  split_ifs <;> rfl

/-- C4: in `build_tag_req`, (1) if the very first queued request's
`build_request` answers `PLCTAG_ERR_TOO_SMALL`, the engine applies the
error backoff and moves to `start_disconnect` with no write armed; (2) if a
later request's `build_request` answers too-small, `data_end` is rolled
back to the pre-attempt value (the `data_end` recorded after the last
successfully packed request — it is what the closing `build_layer` call is
handed), and with a request already packed the engine commits the frame,
moves to `tag_request_sent` and arms the socket write. -/
theorem C4_too_small_packing (env : Env) (plc : PlcState) :
    (∀ (r : Request) (rest : List Request),
      plc.request_list = r :: rest → plc.is_terminating = false →
      (env.build_request r.addr plc.payload_start plc.payload_end
        plc.current_request_id).rc = Status.TooSmall →
      state_build_tag_request env plc =
        ({ plc with retry_interval_ms := backoff plc.retry_interval_ms
                  , next_retry_time := env.now + backoff plc.retry_interval_ms
                  , state_func := StateId.start_disconnect }, Status.Pending) ∧
      (state_build_tag_request env plc).1.write_arms = plc.write_arms)
    ∧
    (∀ r1 r2 : Request,
      plc.request_list = [r1, r2] → plc.is_terminating = false →
      env.write_arm_rc = Status.Ok →
      ∀ br1 bl1 br2 bl2 : LayerResult,
      env.build_request r1.addr plc.payload_start plc.payload_end
        plc.current_request_id = br1 →
      br1.rc = Status.Ok →
      env.build_layer 0 br1.data_start br1.data_end plc.current_request_id = bl1 →
      bl1.rc = Status.Pending →
      env.build_request r2.addr bl1.data_start bl1.data_end bl1.req_id = br2 →
      br2.rc = Status.TooSmall →
      env.build_layer 1 br2.data_start br1.data_end bl1.req_id = bl2 →
      bl2.rc = Status.Ok →
      state_build_tag_request env plc =
        ({ plc with request_list := [{ r1 with req_id := plc.current_request_id },
                                     { r2 with req_id := bl1.req_id }]
                  , payload_end := bl2.data_end
                  , state_func := StateId.tag_request_sent
                  , write_arms := plc.write_arms + 1 }, Status.Ok)) := by
  constructor
  · intro r rest hl ht hb
    have hloop : build_tag_loop env plc.is_terminating (r :: rest)
        plc.payload_start plc.payload_end plc.payload_end
        plc.current_request_id true 0 = (r :: rest, BuildOutcome.disconnect_err) := by
      rw [build_tag_loop]
      simp [ht, hb]
    have hrun : state_build_tag_request env plc =
        ({ plc with retry_interval_ms := backoff plc.retry_interval_ms
                  , next_retry_time := env.now + backoff plc.retry_interval_ms
                  , state_func := StateId.start_disconnect }, Status.Pending) := by
      unfold state_build_tag_request
      rw [hl, hloop, ← hl]
      rfl
    exact ⟨hrun, by rw [hrun]⟩
  · intro r1 r2 hl ht hw br1 bl1 br2 bl2 e1 h1 e2 h2 e3 h3 e4 h4
    have hloop2 : build_tag_loop env false [r2] bl1.data_start bl1.data_end
        br1.data_end bl1.req_id false 1 =
        ([{ r2 with req_id := bl1.req_id }], BuildOutcome.send bl2.data_end) := by
      rw [build_tag_loop]
      simp [e3, h3, e4, h4]
    have hloop1 : build_tag_loop env plc.is_terminating [r1, r2]
        plc.payload_start plc.payload_end plc.payload_end
        plc.current_request_id true 0 =
        ([{ r1 with req_id := plc.current_request_id },
          { r2 with req_id := bl1.req_id }], BuildOutcome.send bl2.data_end) := by
      rw [build_tag_loop]
      simp [ht, e1, h1, e2, h2, hloop2]
    unfold state_build_tag_request
    rw [hl, hloop1]
    simp [hw]

/-- C8 loop lemma: under bounded and start-monotone `build_request` /
`build_layer` callbacks, whenever the packing loop decides to send, the
committed end offset stays between the lower bound `p0` threaded through
the loop and the capacity. -/
theorem build_tag_loop_send_bounds (env : Env) (cap p0 : Int)
    (hBq : ∀ a s e q, OutBounded cap (env.build_request a s e q))
    (hBl : ∀ i s e q, OutBounded cap (env.build_layer i s e q))
    (hMq : ∀ a s e q, 0 ≤ s → s ≤ cap → s ≤ (env.build_request a s e q).data_start)
    (hMl : ∀ i s e q, 0 ≤ s → s ≤ cap → s ≤ (env.build_layer i s e q).data_start)
    (h0 : 0 ≤ p0) :
    ∀ (reqs : List Request) (term : Bool) (ds de ode rid : Int)
      (ft : Bool) (idx : Nat),
      p0 ≤ ds → ds ≤ cap → p0 ≤ de → de ≤ cap → p0 ≤ ode → ode ≤ cap →
      ∀ e, (build_tag_loop env term reqs ds de ode rid ft idx).2 =
        BuildOutcome.send e → p0 ≤ e ∧ e ≤ cap := by
  intro reqs
  induction reqs with
  | nil =>
    intro term ds de ode rid ft idx _ _ _ _ _ _ e he
    rw [build_tag_loop] at he
    exact absurd he (by simp)
  | cons current rest ih =>
    intro term ds de ode rid ft idx hds1 hds2 hde1 hde2 hode1 hode2 e he
    rw [build_tag_loop] at he
    have hds0 : (0 : Int) ≤ ds := le_trans h0 hds1
    obtain ⟨q1, q2, q3⟩ := hBq current.addr ds de rid
    have qm := hMq current.addr ds de rid hds0 hds2
    have hq2 : (env.build_request current.addr ds de rid).data_start ≤ cap :=
      le_trans q2 q3
    obtain ⟨la1, la2, la3⟩ :=
      hBl idx (env.build_request current.addr ds de rid).data_start ode rid
    have lam := hMl idx (env.build_request current.addr ds de rid).data_start
      ode rid q1 hq2
    obtain ⟨lb1, lb2, lb3⟩ :=
      hBl idx (env.build_request current.addr ds de rid).data_start
        (env.build_request current.addr ds de rid).data_end rid
    have lbm := hMl idx (env.build_request current.addr ds de rid).data_start
      (env.build_request current.addr ds de rid).data_end rid q1 hq2
    by_cases hterm : term = true
    · rw [if_pos hterm] at he
      exact absurd he (by simp)
    · rw [if_neg hterm] at he
      dsimp only at he
      split_ifs at he <;> simp at he <;>
        first
          | (constructor <;> omega)
          | (refine ih term _ _ _ _ false (idx + 1) ?_ ?_ ?_ ?_ ?_ ?_ e he <;>
               omega)

/-- C8 helper: the dispatcher does not touch the payload markers. -/
theorem inv_state_dispatch (env : Env) (plc : PlcState) (h : Inv plc) :
    Inv (state_dispatch_requests env plc).1 := by
  unfold state_dispatch_requests
  split_ifs <;> exact h

/-- C8 helper: `reserve_space` stores a bounded window. -/
theorem inv_state_reserve (env : Env) (plc : PlcState)
    (hB : EnvBounded plc.data_capacity env) (h : Inv plc) :
    Inv (state_reserve_space_for_tag_request env plc).1 := by
  unfold state_reserve_space_for_tag_request
  dsimp only
  split_ifs
  · exact h
  · exact hB.1 0 0 0 0

/-- C8 helper: the packing state commits an end offset between
`payload_start` and the capacity. -/
theorem inv_state_build_tag (env : Env) (plc : PlcState)
    (hB : EnvBounded plc.data_capacity env)
    (hM : EnvMonotone plc.data_capacity env) (h : Inv plc) :
    Inv (state_build_tag_request env plc).1 := by
  obtain ⟨h1, h2, h3⟩ := h
  have hsend := build_tag_loop_send_bounds env plc.data_capacity
    plc.payload_start hB.2.2.2.2.2.1 hB.2.1 hM.1 hM.2 h1 plc.request_list
    plc.is_terminating plc.payload_start plc.payload_end plc.payload_end
    plc.current_request_id true 0 (le_refl _) (le_trans h2 h3) h2 h3 h2 h3
  unfold state_build_tag_request
  dsimp only
  cases hq : (build_tag_loop env plc.is_terminating plc.request_list
      plc.payload_start plc.payload_end plc.payload_end
      plc.current_request_id true 0).2 with
  | dispatch_pending => simp only [hq]; exact ⟨h1, h2, h3⟩
  | disconnect_err => simp only [hq]; exact ⟨h1, h2, h3⟩
  | send e =>
    simp only [hq]
    have he := hsend e hq
    split_ifs <;> exact ⟨h1, he.1, he.2⟩

/-- C8 helper: after the write completes the payload markers are zeroed. -/
theorem inv_state_tag_sent (env : Env) (plc : PlcState) (h : Inv plc) :
    Inv (state_tag_request_sent env plc).1 := by
  obtain ⟨h1, h2, h3⟩ := h
  have hcap : (0 : Int) ≤ plc.data_capacity := le_trans (le_trans h1 h2) h3
  unfold state_tag_request_sent
  dsimp only
  split_ifs <;> first | exact ⟨h1, h2, h3⟩ | exact ⟨le_refl 0, le_refl 0, hcap⟩

/-- C8 helper: the response demux does not touch the payload markers. -/
theorem inv_state_resp_ready (env : Env) (plc : PlcState) (h : Inv plc) :
    Inv (state_tag_response_ready env plc).1 := by
  obtain ⟨h1, h2, h3⟩ := h
  cases hq : plc.request_list with
  | nil =>
    unfold state_tag_response_ready
    rw [hq]
    dsimp only
    split_ifs <;> exact ⟨h1, h2, h3⟩
  | cons r rest =>
    unfold state_tag_response_ready
    rw [hq]
    dsimp only
    split_ifs <;> exact ⟨h1, h2, h3⟩

/-- C8 helper: starting a connect does not touch the payload markers. -/
theorem inv_state_start_connect (env : Env) (plc : PlcState) (h : Inv plc) :
    Inv (state_start_connect env plc).1 := by
  unfold state_start_connect
  dsimp only
  split_ifs <;> exact h

/-- C8 helper: the connect build state stores bounded windows. -/
theorem inv_state_build_connect (env : Env) (plc : PlcState)
    (hB : EnvBounded plc.data_capacity env) (h : Inv plc) :
    Inv (state_build_layer_connect_request env plc).1 := by
  obtain ⟨h1, h2, h3⟩ := h
  obtain ⟨c1, c2, c3⟩ := hB.2.2.1 0 0 0
  obtain ⟨b1, b2, b3⟩ := hB.2.1 0 (env.connect_op 0 0 0).data_start
    (env.connect_op 0 0 0).data_end plc.current_request_id
  unfold state_build_layer_connect_request
  dsimp only
  split_ifs <;>
    first
      | exact ⟨h1, h2, h3⟩
      | exact ⟨c1, c2, c3⟩
      | exact ⟨b1, b2, b3⟩

/-- C8 helper: after the connect request write the markers are zeroed. -/
theorem inv_state_connect_sent (env : Env) (plc : PlcState) (h : Inv plc) :
    Inv (state_layer_connect_request_sent env plc).1 := by
  obtain ⟨h1, h2, h3⟩ := h
  have hcap : (0 : Int) ≤ plc.data_capacity := le_trans (le_trans h1 h2) h3
  unfold state_layer_connect_request_sent
  dsimp only
  split_ifs <;> first | exact ⟨h1, h2, h3⟩ | exact ⟨le_refl 0, le_refl 0, hcap⟩

/-- C8 helper: the connect response state only writes
`current_request_id`. -/
theorem inv_state_connect_resp (env : Env) (plc : PlcState) (h : Inv plc) :
    Inv (state_layer_connect_response_ready env plc).1 := by
  unfold state_layer_connect_response_ready
  dsimp only
  split_ifs <;> exact h

/-- C8 helper: starting a disconnect zeroes the payload markers. -/
theorem inv_state_start_disconnect (env : Env) (plc : PlcState) (h : Inv plc) :
    Inv (state_start_disconnect env plc).1 := by
  obtain ⟨h1, h2, h3⟩ := h
  have hcap : (0 : Int) ≤ plc.data_capacity := le_trans (le_trans h1 h2) h3
  unfold state_start_disconnect
  split_ifs <;> first | exact ⟨h1, h2, h3⟩ | exact ⟨le_refl 0, le_refl 0, hcap⟩

/-- C8 helper: the disconnect build state stores a bounded window. -/
theorem inv_state_build_disconnect (env : Env) (plc : PlcState)
    (hB : EnvBounded plc.data_capacity env) (h : Inv plc) :
    Inv (state_build_layer_disconnect_request env plc).1 := by
  obtain ⟨h1, h2, h3⟩ := h
  obtain ⟨b1, b2, b3⟩ := hB.2.1 0
    (env.disconnect_op 0 0 plc.data_capacity).data_start
    (env.disconnect_op 0 0 plc.data_capacity).data_end 0
  unfold state_build_layer_disconnect_request
  dsimp only
  split_ifs <;>
    first
      | exact ⟨h1, h2, h3⟩
      | exact ⟨le_refl 0, le_trans b1 b2, b3⟩

/-- C8 helper: after the disconnect request write the markers are
zeroed. -/
theorem inv_state_disconnect_sent (env : Env) (plc : PlcState) (h : Inv plc) :
    Inv (state_layer_disconnect_request_sent env plc).1 := by
  obtain ⟨h1, h2, h3⟩ := h
  have hcap : (0 : Int) ≤ plc.data_capacity := le_trans (le_trans h1 h2) h3
  unfold state_layer_disconnect_request_sent
  dsimp only
  split_ifs <;> first | exact ⟨h1, h2, h3⟩ | exact ⟨le_refl 0, le_refl 0, hcap⟩

/-- C8 helper: the disconnect response state only writes
`current_request_id` and flags. -/
theorem inv_state_disconnect_resp (env : Env) (plc : PlcState) (h : Inv plc) :
    Inv (state_layer_disconnect_response_ready env plc).1 := by
  unfold state_layer_disconnect_response_ready
  dsimp only
  split_ifs <;> exact h

/-- C8 (amended): with every callback answer bounded by the buffer and
`build_request` / `build_layer` additionally never moving the start offset
backward, `0 ≤ payload_start ≤ payload_end ≤ data_capacity` is preserved by
every state function of the engine. -/
theorem C8_payload_invariant :
    ∀ (env : Env) (plc : PlcState), EnvBounded plc.data_capacity env →
      EnvMonotone plc.data_capacity env → Inv plc → InvAll env plc :=
  fun env plc hB hM h =>
    ⟨inv_state_dispatch env plc h,
     inv_state_reserve env plc hB h,
     inv_state_build_tag env plc hB hM h,
     inv_state_tag_sent env plc h,
     inv_state_resp_ready env plc h,
     inv_state_start_connect env plc h,
     inv_state_build_connect env plc hB h,
     inv_state_connect_sent env plc h,
     inv_state_connect_resp env plc h,
     inv_state_start_disconnect env plc h,
     inv_state_build_disconnect env plc hB h,
     inv_state_disconnect_sent env plc h,
     inv_state_disconnect_resp env plc h,
     h⟩

/-- C8 counterexample: with the claim's hypothesis alone — every callback
answer stays within the buffer bounds — the invariant is not preserved:
in `plcC8x` the reserved window is `[10,60)` of a 64-byte buffer, all
callbacks of `envC8x` answer bounded offsets, yet after
`state_build_tag_request` the PLC has `payload_start = 10 > 5 =
payload_end`. -/
theorem C8_counterexample :
    EnvBounded plcC8x.data_capacity envC8x ∧ Inv plcC8x ∧
    ¬((state_build_tag_request envC8x plcC8x).1.payload_start ≤
      (state_build_tag_request envC8x plcC8x).1.payload_end) := by
  have hz : OutBounded plcC8x.data_capacity zeroResult := by
    unfold OutBounded
    decide
  have hb : OutBounded plcC8x.data_capacity
      { rc := Status.Ok, data_start := 0, data_end := 5, req_id := 0 } := by
    unfold OutBounded
    decide
  exact ⟨⟨fun _ _ _ _ => hz, fun _ _ _ _ => hb, fun _ _ _ => hz,
    fun _ _ _ => hz, fun _ _ _ _ => hz, fun _ _ _ _ => hb,
    fun _ _ _ _ => hz⟩, by unfold Inv; decide, by decide⟩

/-- C8 witness: the amended invariant theorem applied to a concrete
bounded, start-monotone environment over a 64-byte buffer. -/
theorem C8_payload_invariant_witness : InvAll envC8w plcC8w := by
  refine C8_payload_invariant envC8w plcC8w ?_ ?_ ?_
  · refine ⟨fun i s e q => ?_, fun i s e q => ?_, fun i s e => ?_,
      fun i s e => ?_, fun i s e q => ?_, fun a s e q => ?_,
      fun a s e q => ?_⟩ <;>
      (simp only [envC8w, baseEnv, plcC8w, freshPlc, OutBounded, clampResult]
       split_ifs <;> omega)
  · refine ⟨fun a s e q h1 h2 => ?_, fun i s e q h1 h2 => ?_⟩ <;>
      (simp only [envC8w, baseEnv, plcC8w, freshPlc, clampResult] at h2 ⊢
       split_ifs <;> omega)
  · exact ⟨by decide, by decide, by decide⟩

/-- C4 witness: both clauses evaluated on concrete scenarios; in the
second, request 1 packs `[4,14)`, request 2 reports too-small, and the
frame is sent with the rolled-back end 14. -/
theorem C4_too_small_packing_witness :
    (state_build_tag_request envC4a plcC4a =
      ({ plcC4a with retry_interval_ms := backoff plcC4a.retry_interval_ms
                   , next_retry_time := envC4a.now + backoff plcC4a.retry_interval_ms
                   , state_func := StateId.start_disconnect }, Status.Pending) ∧
     (state_build_tag_request envC4a plcC4a).1.write_arms = plcC4a.write_arms) ∧
    state_build_tag_request envC4b plcC4b =
      ({ plcC4b with request_list := [{ addr := 1, req_id := 0 },
                                      { addr := 2, req_id := 1 }]
                   , payload_end := 14
                   , state_func := StateId.tag_request_sent
                   , write_arms := plcC4b.write_arms + 1 }, Status.Ok) :=
  ⟨(C4_too_small_packing envC4a plcC4a).1 { addr := 1, req_id := -1 } []
      (by decide) (by decide) (by decide),
   (C4_too_small_packing envC4b plcC4b).2 { addr := 1, req_id := -1 }
      { addr := 2, req_id := -1 } (by decide) (by decide) (by decide)
      { rc := Status.Ok, data_start := 4, data_end := 14, req_id := 0 }
      { rc := Status.Pending, data_start := 4, data_end := 14, req_id := 1 }
      { rc := Status.TooSmall, data_start := 14, data_end := 14, req_id := 0 }
      { rc := Status.Ok, data_start := 0, data_end := 14, req_id := 1 }
      (by decide) (by decide) (by decide) (by decide) (by decide) (by decide)
      (by decide) (by decide)⟩

end Plc
